import Mathlib

/-!
Verification of the feature-alignment and UI-state logic of the
real-estate price prediction app (`src/app.py`), shallowly embedded in
Lean 4.  A feature row is modelled as an ordered association list of
column name to integer value, mirroring a single-row pandas DataFrame
whose column order is the insertion order of the Python dict it was
built from.
-/

namespace RealEstate

/-- The two values of a yes/no selectbox (`["Yes","No"]` in `app.py`). -/
inductive YesNo where
  | yes
  | no
deriving DecidableEq, Repr

/-- The three values of the furnishing-status selectbox
(`["Furnished","Semi-Furnished","Unfurnished"]` in `app.py`). -/
inductive FurnishingStatus where
  | furnished
  | semiFurnished
  | unfurnished
deriving DecidableEq, Repr

/-- RawInput: the user-supplied attributes of one prediction request,
as collected by the Home tab widgets (`app.py` lines 176-189).  Numeric
widgets yield integers; the free-text location is a string. -/
structure RawInput where
  area : Int
  bedrooms : Int
  bathrooms : Int
  stories : Int
  parking : Int
  mainroad : YesNo
  guestroom : YesNo
  basement : YesNo
  hotwaterheating : YesNo
  airconditioning : YesNo
  prefarea : YesNo
  furnishingstatus : FurnishingStatus
  location : String
deriving DecidableEq, Repr

/-- ModelSchema: what `app.py` introspects from the loaded model
(lines 166-167): `expected_features = getattr(model, "n_features_in_", None)`
and `feature_names_in = getattr(model, "feature_names_in_", None)`. -/
structure ModelSchema where
  expected_features : Option Nat
  feature_names_in : Option (List String)
deriving DecidableEq, Repr

/-- `yn = lambda v: 1 if v=="Yes" else 0` (`app.py` line 191). -/
def yn (v : YesNo) : Int :=
  if v = YesNo.yes then 1 else 0

/-- `base_vals` (`app.py` lines 192-197): the eleven base numeric/binary
columns, in the insertion order of the Python dict. -/
def base_vals (r : RawInput) : List (String × Int) :=
  [("area", r.area), ("bedrooms", r.bedrooms), ("bathrooms", r.bathrooms),
   ("stories", r.stories), ("mainroad", yn r.mainroad), ("guestroom", yn r.guestroom),
   ("basement", yn r.basement), ("hotwaterheating", yn r.hotwaterheating),
   ("airconditioning", yn r.airconditioning), ("parking", r.parking),
   ("prefarea", yn r.prefarea)]

/-- `fs_map = {"Furnished":0,"Semi-Furnished":1,"Unfurnished":2}`
(`app.py` line 201). -/
def fs_map (fs : FurnishingStatus) : Int :=
  match fs with
  | FurnishingStatus.furnished => 0
  | FurnishingStatus.semiFurnished => 1
  | FurnishingStatus.unfurnished => 2

/-- The label-encoded row (`app.py` lines 201-203):
`vals = {**base_vals, "furnishingstatus": fs_map[furnishingstatus]}`. -/
def label_row (r : RawInput) : List (String × Int) :=
  base_vals r ++ [("furnishingstatus", fs_map r.furnishingstatus)]

/-- The one-hot (drop-first) row (`app.py` lines 205-208):
`furnished = 1 if furnishingstatus=="Furnished" else 0`,
`semi = 1 if furnishingstatus=="Semi-Furnished" else 0`, appended to
`base_vals` as two indicator columns. -/
def onehot_row (r : RawInput) : List (String × Int) :=
  base_vals r ++
    [("furnishingstatus_furnished",
        if r.furnishingstatus = FurnishingStatus.furnished then 1 else 0),
     ("furnishingstatus_semi-furnished",
        if r.furnishingstatus = FurnishingStatus.semiFurnished then 1 else 0)]

/-- The encoding guard `expected_features and expected_features == len(base_vals)+1`
(`app.py` line 200), with Python truthiness: `None` and `0` are falsy,
so the conjunction short-circuits to the one-hot branch for them. -/
def enc_label_guard (ef : Option Nat) (k : Nat) : Bool :=
  match ef with
  | none => false
  | some n => (decide (n ≠ 0)) && (n == k)

/-- The `X_local` built by the first `if/else` of `build_features_df`
(`app.py` lines 200-208), before any `feature_names_in` handling. -/
def pre_align (r : RawInput) (ef : Option Nat) : List (String × Int) :=
  if enc_label_guard ef ((base_vals r).length + 1) then label_row r else onehot_row r

/-- Value of column `c` in a single-row frame: the second component of the
first binding whose name equals `c` (columns built by the app are unique,
so first match is the column). -/
def lookupVal (row : List (String × Int)) (c : String) : Int :=
  match row.find? (fun p => p.1 == c) with
  | some p => p.2
  | none => 0

/-- The loop `for c in feature_names_in: if c not in X_local.columns: X_local[c]=0`
(`app.py` lines 210-212): each expected name not yet a column is appended
with value 0 (pandas appends new columns at the end). -/
def addMissing (row : List (String × Int)) (names : List String) : List (String × Int) :=
  names.foldl
    (fun acc c => if acc.any (fun p => p.1 == c) then acc else acc ++ [(c, (0 : Int))])
    row

/-- The reindexing `X_local = X_local[[c for c in feature_names_in]]`
(`app.py` line 213): select the expected columns, in the expected order. -/
def selectCols (row : List (String × Int)) (names : List String) : List (String × Int) :=
  names.map (fun c => (c, lookupVal row c))

/-- `build_features_df` (`app.py` lines 199-214): choose the encoding by
the guard of line 200, then, when `feature_names_in` is present, pad the
missing expected columns with 0 and reindex to exactly that name list. -/
def build_features_df (r : RawInput) (s : ModelSchema) : List (String × Int) :=
  let X_local := pre_align r s.expected_features
  match s.feature_names_in with
  | none => X_local
  | some names => selectCols (addMissing X_local names) names

/-- FeedbackEntry: one record of the feedback store
(`app.py` lines 322-327). -/
structure FeedbackEntry where
  name : String
  rating : Nat
  feedback : String
  date : String
deriving DecidableEq, Repr

/-- State of the `feedback.json` file as `load_feedback` observes it:
missing, present but not parsable as JSON, or parsed to a record list. -/
inductive FeedbackFile where
  | missing
  | unparsable
  | parsed (records : List FeedbackEntry)
deriving DecidableEq, Repr

/-- `load_feedback` (`app.py` lines 32-39): a missing file and a JSON
parse failure both yield `[]`; otherwise the parsed list is returned. -/
def load_feedback (f : FeedbackFile) : List FeedbackEntry :=
  match f with
  | FeedbackFile.missing => []
  | FeedbackFile.unparsable => []
  | FeedbackFile.parsed records => records

/-- Message shown by the feedback form after a submit. -/
inductive FormMsg where
  | success
  | warning
deriving DecidableEq, Repr

/-- Python `str.strip()`: drop whitespace from both ends of the string,
returned as a character list. -/
def strip (s : String) : List Char :=
  ((s.data.dropWhile Char.isWhitespace).reverse.dropWhile Char.isWhitespace).reverse

/-- The submit branch of the feedback form (`app.py` lines 316-335):
if `feedback.strip()` is truthy (non-empty after stripping), append a new
record (name defaulting to "Anonymous" when the name field is falsy,
i.e. empty) and show a success message; otherwise show a warning and
leave the store untouched. -/
def feedback_form_submit (store : List FeedbackEntry) (name : String) (rating : Nat)
    (feedback : String) (date : String) : List FeedbackEntry × FormMsg :=
  if strip feedback ≠ [] then
    (store ++ [{ name := if name ≠ "" then name else "Anonymous",
                 rating := rating, feedback := feedback, date := date }],
     FormMsg.success)
  else
    (store, FormMsg.warning)

/-- HistoryEntry: one row of the in-session prediction history
(`app.py` lines 221-225).  The predicted price is kept as the raw model
output (the app stores a formatted string of the same number). -/
structure HistoryEntry where
  location : String
  area : Int
  bedrooms : Int
  bathrooms : Int
  stories : Int
  parking : Int
  predicted : Int
deriving DecidableEq, Repr

/-- The history record appended on a successful prediction
(`app.py` lines 221-225): location defaults to "Unknown" when empty. -/
def mkHistoryEntry (r : RawInput) (pred : Int) : HistoryEntry :=
  { location := if r.location ≠ "" then r.location else "Unknown",
    area := r.area, bedrooms := r.bedrooms, bathrooms := r.bathrooms,
    stories := r.stories, parking := r.parking, predicted := pred }

/-- The predict-button handler (`app.py` lines 217-227): `model.predict`
either succeeds with a value or raises; on success the history gets one
appended entry and no error is shown, on failure the error message is
surfaced and the history is left as it was. -/
def predict_click (history : List HistoryEntry) (r : RawInput)
    (result : Except String Int) : List HistoryEntry × Option String :=
  match result with
  | Except.ok pred => (history ++ [mkHistoryEntry r pred], none)
  | Except.error e => (history, some ("Prediction error: " ++ e))

/-! Helper lemmas about the column-alignment primitives. -/

/-- The padding loop only appends columns, and every appended value is 0. -/
theorem addMissing_eq_append (names : List String) (row : List (String × Int)) :
    ∃ extra, addMissing row names = row ++ extra ∧ ∀ p ∈ extra, p.2 = 0 := by
  induction names generalizing row with
  | nil => exact ⟨[], by simp [addMissing]⟩
  | cons c ns ih =>
    by_cases h : row.any (fun p => p.1 == c)
    · obtain ⟨e, he, hz⟩ := ih row
      refine ⟨e, ?_, hz⟩
      simpa [addMissing, h] using he
    · obtain ⟨e, he, hz⟩ := ih (row ++ [(c, (0 : Int))])
      refine ⟨(c, (0 : Int)) :: e, ?_, ?_⟩
      · have hstep : addMissing row (c :: ns) = addMissing (row ++ [(c, (0 : Int))]) ns := by
          simp [addMissing, h]
        rw [hstep, he, List.append_assoc]
        rfl
      · intro p hp
        rcases List.mem_cons.mp hp with hp | hp
        · simp [hp]
        · exact hz p hp

/-- After padding, a column whose name was absent from the original row
reads as 0 (it was either appended with value 0, or is still absent and
`lookupVal` defaults to 0, though the latter cannot happen for a name in
the padded list). -/
theorem lookup_addMissing_of_not_key {c : String} (names : List String)
    (row : List (String × Int)) (hc : c ∉ row.map Prod.fst) :
    lookupVal (addMissing row names) c = 0 := by
  obtain ⟨e, he, hz⟩ := addMissing_eq_append names row
  rw [he]
  unfold lookupVal
  have h1 : row.find? (fun p => p.1 == c) = none := by
    rw [List.find?_eq_none]
    intro p hp hpc
    exact hc (List.mem_map.mpr ⟨p, hp, beq_iff_eq.mp hpc⟩)
  rw [List.find?_append, h1, Option.none_or]
  cases hfind : e.find? (fun p => p.1 == c) with
  | none => rfl
  | some p => exact hz p (List.mem_of_find?_eq_some hfind)

/-- Reindexing yields exactly the requested column names, in order. -/
theorem keys_selectCols (row : List (String × Int)) (names : List String) :
    (selectCols row names).map Prod.fst = names := by
  simp [selectCols, List.map_map, Function.comp_def]

/-- The furnished indicator of the one-hot row, unfolded. -/
theorem lookup_onehot_furnished (r : RawInput) :
    lookupVal (onehot_row r) "furnishingstatus_furnished"
      = (if r.furnishingstatus = FurnishingStatus.furnished then 1 else 0) := rfl

/-- The semi-furnished indicator of the one-hot row, unfolded. -/
theorem lookup_onehot_semi (r : RawInput) :
    lookupVal (onehot_row r) "furnishingstatus_semi-furnished"
      = (if r.furnishingstatus = FurnishingStatus.semiFurnished then 1 else 0) := rfl

/-! The claims. -/

/-- Claim C1: for every RawInput, the aligner chooses label encoding (one
`furnishingstatus` column appended to the 11 base columns) exactly when the
model's declared `expected_count` equals 12, i.e. the number of base fields
plus one; for `expected_count = 13`, absent, or any other value (including
the Python-falsy 0) it takes the one-hot path. -/
theorem claim1_label_encoding_iff_expected12 (r : RawInput) (ef : Option Nat) :
    (base_vals r).length + 1 = 12 ∧
    pre_align r ef = (if ef = some 12 then label_row r else onehot_row r) := by
  refine ⟨rfl, ?_⟩
  cases ef with
  | none => simp [pre_align, enc_label_guard]
  | some n =>
    by_cases h : n = 12
    · subst h; simp [pre_align, enc_label_guard, base_vals]
    · simp [pre_align, enc_label_guard, base_vals, h]

/-- Claim C2: whenever `expected_names` is present, the aligned row's
column sequence equals `expected_names` exactly and in order; every
expected name missing from the raw-derived columns appears with value 0;
and every raw-derived column not among the expected names is dropped. -/
theorem claim2_expected_names_alignment (r : RawInput) (ef : Option Nat)
    (names : List String) :
    (build_features_df r ⟨ef, some names⟩).map Prod.fst = names ∧
    (∀ c, c ∈ names → c ∉ (pre_align r ef).map Prod.fst →
       (c, (0 : Int)) ∈ build_features_df r ⟨ef, some names⟩) ∧
    (∀ p, p ∈ build_features_df r ⟨ef, some names⟩ → p.1 ∈ names) := by
  have hb : build_features_df r ⟨ef, some names⟩
      = selectCols (addMissing (pre_align r ef) names) names := rfl
  refine ⟨?_, ?_, ?_⟩
  · rw [hb]; exact keys_selectCols _ _
  · intro c hc hnc
    rw [hb]
    have h0 : lookupVal (addMissing (pre_align r ef) names) c = 0 :=
      lookup_addMissing_of_not_key names _ hnc
    exact List.mem_map.mpr ⟨c, hc, by rw [h0]⟩
  · intro p hp
    rw [hb] at hp
    rcases List.mem_map.mp hp with ⟨c, hc, hpc⟩
    rw [← hpc]
    exact hc

/-- Claim C3: the value conversion maps each yes/no field Yes→1 and No→0;
in label mode `furnishingstatus` maps Furnished→0, Semi-Furnished→1,
Unfurnished→2; in one-hot mode the two indicator columns are 1 exactly
when `furnishingstatus` equals the corresponding category, and both 0 for
Unfurnished. -/
theorem claim3_value_conversion (r : RawInput) :
    yn YesNo.yes = 1 ∧ yn YesNo.no = 0 ∧
    lookupVal (base_vals r) "mainroad" = yn r.mainroad ∧
    lookupVal (base_vals r) "guestroom" = yn r.guestroom ∧
    lookupVal (base_vals r) "basement" = yn r.basement ∧
    lookupVal (base_vals r) "hotwaterheating" = yn r.hotwaterheating ∧
    lookupVal (base_vals r) "airconditioning" = yn r.airconditioning ∧
    lookupVal (base_vals r) "prefarea" = yn r.prefarea ∧
    fs_map FurnishingStatus.furnished = 0 ∧
    fs_map FurnishingStatus.semiFurnished = 1 ∧
    fs_map FurnishingStatus.unfurnished = 2 ∧
    lookupVal (label_row r) "furnishingstatus" = fs_map r.furnishingstatus ∧
    lookupVal (onehot_row r) "furnishingstatus_furnished"
      = (if r.furnishingstatus = FurnishingStatus.furnished then 1 else 0) ∧
    lookupVal (onehot_row r) "furnishingstatus_semi-furnished"
      = (if r.furnishingstatus = FurnishingStatus.semiFurnished then 1 else 0) ∧
    (r.furnishingstatus = FurnishingStatus.unfurnished →
       lookupVal (onehot_row r) "furnishingstatus_furnished" = 0 ∧
       lookupVal (onehot_row r) "furnishingstatus_semi-furnished" = 0) := by
  refine ⟨rfl, rfl, rfl, rfl, rfl, rfl, rfl, rfl, rfl, rfl, rfl, rfl, rfl, rfl, ?_⟩
  intro h
  rw [lookup_onehot_furnished, lookup_onehot_semi, h]
  exact ⟨rfl, rfl⟩

/-- Claim C4: when the submitted feedback text is non-empty after
stripping, the store becomes exactly the prior records with one new
record appended, carrying the submitted rating and text, the name
defaulting to "Anonymous" when the name field is empty, and a success
message is shown. -/
theorem claim4_feedback_append (store : List FeedbackEntry) (who : String)
    (rating : Nat) (text : String) (date : String) (h : strip text ≠ []) :
    feedback_form_submit store who rating text date =
      (store ++ [{ name := if who ≠ "" then who else "Anonymous",
                   rating := rating, feedback := text, date := date }],
       FormMsg.success) := by
  simp only [feedback_form_submit, if_pos h]

/-- Witness for C4: the spec's concrete instance — an empty store, rating
5, text "Great", name omitted — yields exactly one record named
"Anonymous" with rating 5. -/
theorem claim4_feedback_append_witness :
    strip "Great" ≠ [] ∧
    feedback_form_submit [] "" 5 "Great" "2025-10-12 00:00:00" =
      ([{ name := "Anonymous", rating := 5, feedback := "Great",
          date := "2025-10-12 00:00:00" }], FormMsg.success) := by
  refine ⟨by decide, ?_⟩
  rw [claim4_feedback_append [] "" 5 "Great" "2025-10-12 00:00:00" (by decide)]
  rfl

/-- Claim C5: submitting feedback whose text strips to empty is rejected
with a warning and leaves the store unchanged. -/
theorem claim5_empty_feedback_rejected (store : List FeedbackEntry) (who : String)
    (rating : Nat) (text : String) (date : String) (h : strip text = []) :
    feedback_form_submit store who rating text date = (store, FormMsg.warning) := by
  simp [feedback_form_submit, h]

/-- Witness for C5: a whitespace-only submission on a one-record store
leaves the store as it was and warns. -/
theorem claim5_empty_feedback_rejected_witness :
    strip "   " = [] ∧
    feedback_form_submit [{ name := "A", rating := 3, feedback := "ok", date := "d" }]
        "B" 4 "   " "d2"
      = ([{ name := "A", rating := 3, feedback := "ok", date := "d" }], FormMsg.warning) :=
  ⟨by decide,
   claim5_empty_feedback_rejected
     [{ name := "A", rating := 3, feedback := "ok", date := "d" }] "B" 4 "   " "d2"
     (by decide)⟩

/-- Claim C6: loading the feedback store never fails — a missing file and
an unparsable file both load as the empty record list. -/
theorem claim6_load_feedback_missing_or_unparsable :
    load_feedback FeedbackFile.missing = [] ∧
    load_feedback FeedbackFile.unparsable = [] :=
  ⟨rfl, rfl⟩

/-- Claim C7: a failed predict call surfaces the error and leaves the
history unchanged; a successful one appends exactly one entry; the
history changes only on success. -/
theorem claim7_prediction_failure_abandoned (history : List HistoryEntry)
    (r : RawInput) :
    (∀ e, predict_click history r (Except.error e)
        = (history, some ("Prediction error: " ++ e))) ∧
    (∀ pred, predict_click history r (Except.ok pred)
        = (history ++ [mkHistoryEntry r pred], none)) ∧
    (∀ res, (predict_click history r res).1 ≠ history →
       ∃ pred, res = Except.ok pred) := by
  refine ⟨fun e => rfl, fun pred => rfl, ?_⟩
  intro res hne
  cases res with
  | ok pred => exact ⟨pred, rfl⟩
  | error e => exact absurd rfl hne

/-- Claim C8: the aligner is deterministic — aligning the same RawInput
against the same ModelSchema twice yields identical feature rows. -/
theorem claim8_align_deterministic (r : RawInput) (s : ModelSchema) :
    build_features_df r s = build_features_df r s := rfl

/-- Claim C9: the free-text location field never influences the model
input — two RawInputs differing only in location align identically. -/
theorem claim9_location_not_fed_to_model (r : RawInput) (l1 l2 : String)
    (s : ModelSchema) :
    build_features_df { r with location := l1 } s
      = build_features_df { r with location := l2 } s := rfl

/-- Claim C10: before any expected-names reordering, the one-hot row has
exactly 13 columns (the 11 base columns plus the two indicators), each
indicator is 0 or 1, and the two indicators are never both 1. -/
theorem claim10_onehot_shape_invariant (r : RawInput) :
    (onehot_row r).length = 13 ∧
    (onehot_row r).map Prod.fst =
      ["area", "bedrooms", "bathrooms", "stories", "mainroad", "guestroom", "basement",
       "hotwaterheating", "airconditioning", "parking", "prefarea",
       "furnishingstatus_furnished", "furnishingstatus_semi-furnished"] ∧
    (lookupVal (onehot_row r) "furnishingstatus_furnished" = 0 ∨
       lookupVal (onehot_row r) "furnishingstatus_furnished" = 1) ∧
    (lookupVal (onehot_row r) "furnishingstatus_semi-furnished" = 0 ∨
       lookupVal (onehot_row r) "furnishingstatus_semi-furnished" = 1) ∧
    ¬(lookupVal (onehot_row r) "furnishingstatus_furnished" = 1 ∧
        lookupVal (onehot_row r) "furnishingstatus_semi-furnished" = 1) := by
  cases h : r.furnishingstatus <;>
    refine ⟨rfl, rfl, ?_, ?_, ?_⟩ <;>
    simp [lookup_onehot_furnished, lookup_onehot_semi, h]

end RealEstate
